import Mathlib

/-!
Verification development for the Skywash repository: a PM2.5 dashboard with a
freshness cache, refresh orchestrator, washout simulator (backend), and a
React view layer (frontend).  The frontend components (`App.tsx`,
`WashoutSimulator.tsx`, `CityChart.tsx`, `MapView.tsx`) are embedded from
their TypeScript source.  The backend core (City Registry, Upstream Client,
Freshness Cache, Refresh Orchestrator, Washout Simulator) is not present in
the source tree, so those components are modelled from the specification.
JavaScript numbers are embedded as rationals (plus an explicit `JsNumber`
type carrying NaN and the infinities where the code can observe them); the
backend simulate function is embedded over the reals.
-/

/-! ## Data model (spec section 3) -/

/-- Data-source tag of a cached reading / city row. -/
inductive DataSource
  | real_time
  | static
deriving DecidableEq

/-- Modelled from the spec: immutable City Registry entry (name, coordinates,
region tag, approximate population, static baseline PM2.5). -/
structure CityRecord where
  name : String
  lat : ℚ
  lon : ℚ
  region : String
  population : ℚ
  baseline : ℚ
deriving DecidableEq

/-- Modelled from the spec: mutable per-city cache entry (city key, PM2.5
value, data-source tag, timestamp of last successful fetch, failure count). -/
structure CachedReading where
  city : String
  pm25 : ℚ
  source : DataSource
  last_fetch : Option Nat
  failures : Nat
deriving DecidableEq

/-- Modelled from the spec: tri-state result of one Upstream Client fetch. -/
inductive FetchOutcome
  | success (pm25 : ℚ) (observedAt : Nat)
  | invalid (reason : String)
  | unavailable (reason : String)
deriving DecidableEq

/-- True for a `success` outcome whose value passes the validity check
(finite and strictly positive; rationals are always finite). -/
def FetchOutcome.validSuccess : FetchOutcome → Bool :=
  fun o =>
    match o with
    | .success v _ => decide (0 < v)
    | _ => false

/-! ## Freshness Cache (spec section 4.3), modelled from the spec -/

/-- The Freshness Cache: one optional entry per city key. -/
def Cache : Type := String → Option CachedReading

/-- The empty cache (process start: no entry for any city). -/
def emptyCache : Cache := fun _ => none

/-- The static-baseline reading synthesized for a city, carrying a given
failure count.  It is tagged `static` and carries no fetch timestamp. -/
def staticFallback (reg : CityRecord) (fails : Nat) : CachedReading :=
  ⟨reg.name, reg.baseline, DataSource.static, none, fails⟩

/-- Modelled from the spec: fallback step of `write` on a failed or invalid
outcome.  Increment the failure count; if the entry is absent or was never
`real_time`, set/keep it as the static baseline; never overwrite a
still-usable stale `real_time` reading. -/
def degrade (cur : Option CachedReading) (reg : CityRecord) : CachedReading :=
  match cur with
  | some r =>
      if r.source = DataSource.real_time then
        ⟨r.city, r.pm25, r.source, r.last_fetch, r.failures + 1⟩
      else
        staticFallback reg (r.failures + 1)
  | none => staticFallback reg 1

/-- Modelled from the spec: the entry resulting from applying one
`FetchOutcome` on top of the current entry.  A `success` whose value fails
the finite-and-positive validity check is rejected and treated like an
invalid outcome. -/
def writeEntry (cur : Option CachedReading) (reg : CityRecord)
    (outcome : FetchOutcome) (now : Nat) : CachedReading :=
  match outcome with
  | .success v _ =>
      if 0 < v then ⟨reg.name, v, DataSource.real_time, some now, 0⟩
      else degrade cur reg
  | .invalid _ => degrade cur reg
  | .unavailable _ => degrade cur reg

/-- Modelled from the spec: `write(city, outcome)` applied by the
Orchestrator; updates only the entry of the written city. -/
def write (cache : Cache) (reg : CityRecord) (outcome : FetchOutcome)
    (now : Nat) : Cache :=
  fun c =>
    if c = reg.name then some (writeEntry (cache reg.name) reg outcome now)
    else cache c

/-- Modelled from the spec: `read(city)` returns the current entry, or a
synthesized `static` reading from the registry baseline when none exists.
It is a pure function of the cache and triggers no fetch.  (Named
`readCache` because a plain `read` clashes with an imported name.) -/
def readCache (cache : Cache) (reg : CityRecord) : CachedReading :=
  (cache reg.name).getD (staticFallback reg 0)

/-- Modelled from the spec: `isFresh(city, ttl)` is true iff an entry
exists, is `real_time`, and `now - timestamp < ttl`. -/
def isFresh (cache : Cache) (city : String) (ttl now : Nat) : Bool :=
  match cache city with
  | some r =>
      match r.source, r.last_fetch with
      | DataSource.real_time, some t => decide (now - t < ttl)
      | _, _ => false
  | none => false

/-- A single cache mutation event (the Orchestrator is the only writer). -/
inductive CacheOp
  | doWrite (reg : CityRecord) (outcome : FetchOutcome) (now : Nat)
deriving DecidableEq

/-- The registry record a cache operation targets. -/
def CacheOp.reg : CacheOp → CityRecord :=
  fun op => match op with | .doWrite r _ _ => r

/-- The city key a cache operation targets. -/
def CacheOp.city : CacheOp → String :=
  fun op => match op with | .doWrite r _ _ => r.name

/-- The fetch outcome a cache operation carries. -/
def CacheOp.outcome : CacheOp → FetchOutcome :=
  fun op => match op with | .doWrite _ o _ => o

/-- Apply a sequence of write events, in order, to a cache. -/
def applyOps (ops : List CacheOp) (cache : Cache) : Cache :=
  match ops with
  | [] => cache
  | CacheOp.doWrite reg o now :: rest => applyOps rest (write cache reg o now)

/-! ## Refresh Orchestrator (spec section 4.4), modelled from the spec -/

/-- Result of one refresh pass: the updated cache and the list of city keys
for which an upstream fetch was actually issued, in dispatch order. -/
structure RefreshResult where
  cache : Cache
  fetched : List String

/-- Modelled from the spec: `refreshAll` fans a fetch out over every
registry city that is not fresh (every city, when forced), applying each
outcome via `write` as it arrives.  Concurrency is I/O fan-out with no
cross-city interaction, so the pass is embedded as the sequential
per-city fold; `oracle` gives the outcome of the single upstream fetch
issued for a given city during this pass (no within-pass retry). -/
def refreshAll (registry : List CityRecord) (oracle : String → FetchOutcome)
    (ttl now : Nat) (forced : Bool) (cache : Cache) : RefreshResult :=
  match registry with
  | [] => ⟨cache, []⟩
  | reg :: rest =>
      if forced || !(isFresh cache reg.name ttl now) then
        let r := refreshAll rest oracle ttl now forced
          (write cache reg (oracle reg.name) now)
        ⟨r.cache, reg.name :: r.fetched⟩
      else refreshAll rest oracle ttl now forced cache

/-! ## Washout Simulator (spec section 4.5), modelled from the spec -/

/-- Failure of the washout simulation contract. -/
inductive SimError
  | invalidInput
deriving DecidableEq

/-- Modelled from the spec: the small positive epsilon at which the final
concentration is floored. -/
noncomputable def EPS : ℝ := 1 / 1000000000

/-- Modelled from the spec: first-order exponential washout.  With rate
`k = coeff * rainIntensity`, the final concentration is
`pm25 * exp (-k * durationHours)`, floored at `EPS`. -/
noncomputable def washout (coeff pm25 rainIntensity durationHours : ℝ) : ℝ :=
  max EPS (pm25 * Real.exp (-(coeff * rainIntensity * durationHours)))

/-- Modelled from the spec: `simulate(pm25, rainIntensity, durationHours)`
fails with `InvalidInput` when any argument is out of domain (the embedding
uses real numbers, so every representable argument is finite), and otherwise
returns the washout value. -/
noncomputable def simulate (coeff pm25 rainIntensity durationHours : ℝ) :
    Except SimError ℝ :=
  if pm25 ≤ 0 ∨ rainIntensity ≤ 0 ∨ durationHours ≤ 0 then
    Except.error SimError.invalidInput
  else Except.ok (washout coeff pm25 rainIntensity durationHours)

/-! ## View layer: `City` rows and `App.tsx` display list -/

/-- The `City` interface of `App.tsx`: `population`, `region`,
`data_source` and `last_updated` are optional fields; `pm25` is embedded as
a (finite) rational. -/
structure City where
  city : String
  lat : ℚ
  lon : ℚ
  pm25 : ℚ
  population : Option ℚ
  region : Option String
  data_source : Option DataSource
  last_updated : Option String
deriving DecidableEq

/-- The sort order of `displayedCities` in `App.tsx`: descending by
population (a missing population counts as 0), ties broken by descending
PM2.5.  `a` may come before `b` exactly when this relation holds. -/
def cityOrder (a b : City) : Prop :=
  b.population.getD 0 < a.population.getD 0 ∨
    (a.population.getD 0 = b.population.getD 0 ∧ b.pm25 ≤ a.pm25)

instance : DecidableRel cityOrder := fun a b => by
  unfold cityOrder; infer_instance

instance : IsTotal City cityOrder :=
  ⟨fun a b => by
    unfold cityOrder
    rcases lt_trichotomy (a.population.getD 0) (b.population.getD 0) with h | h | h
    · exact Or.inr (Or.inl h)
    · rcases le_total b.pm25 a.pm25 with hp | hp
      · exact Or.inl (Or.inr ⟨h, hp⟩)
      · exact Or.inr (Or.inr ⟨h.symm, hp⟩)
    · exact Or.inl (Or.inl h)⟩

instance : IsTrans City cityOrder :=
  ⟨fun a b c hab hbc => by
    unfold cityOrder at hab hbc ⊢
    rcases hab with h1 | ⟨h1, h1p⟩ <;> rcases hbc with h2 | ⟨h2, h2p⟩
    · exact Or.inl (h2.trans h1)
    · exact Or.inl (h2 ▸ h1)
    · exact Or.inl (h1 ▸ h2)
    · exact Or.inr ⟨h1.trans h2, h2p.trans h1p⟩⟩

/-- `displayedCities` from `App.tsx` lines 86-99: filter by the selected
region (no filter for the Global selection), sort by `cityOrder`
(`Array.prototype.sort` with the population/PM2.5 comparator, embedded as a
sort producing a `cityOrder`-sorted permutation), and keep the first 10. -/
def displayedCities (cities : List City) (selectedRegion : String) : List City :=
  let list :=
    if selectedRegion = ("Global") then cities
    else cities.filter (fun c => decide (c.region = some selectedRegion))
  (list.insertionSort cityOrder).take 10

/-! ## View layer: chart and map colours -/

/-- The AQI threshold fill colour used by `CityChart.tsx` for a live bar. -/
def aqiChartColour (pm : ℚ) : String :=
  if 301 ≤ pm then ("rgba(126, 0, 35, 0.85)")
  else if 201 ≤ pm then ("rgba(143, 63, 151, 0.85)")
  else if 151 ≤ pm then ("rgba(255, 0, 0, 0.85)")
  else if 101 ≤ pm then ("rgba(255, 126, 0, 0.85)")
  else if 51 ≤ pm then ("rgba(255, 255, 0, 0.85)")
  else ("rgba(0, 228, 0, 0.85)")

/-- Bar fill colour of `CityChart.tsx` (lines 42-50): gray whenever the
city's `data_source` differs from `real_time`, AQI thresholds otherwise. -/
def chartBarColour (c : City) : String :=
  if c.data_source ≠ some DataSource.real_time then ("rgba(180, 180, 180, 0.85)")
  else aqiChartColour c.pm25

/-- The AQI threshold colour used by `MapView.tsx` for a live marker. -/
def aqiMarkerColour (pm : ℚ) : String :=
  if 301 ≤ pm then ("#7e0023")
  else if 201 ≤ pm then ("#8f3f97")
  else if 151 ≤ pm then ("#ff0000")
  else if 101 ≤ pm then ("#ff7e00")
  else if 51 ≤ pm then ("#ffff00")
  else ("#00e400")

/-- `getMarkerColor` of `MapView.tsx`: grey exactly when `data_source`
equals `static`, AQI thresholds otherwise. -/
def getMarkerColor (pm25 : ℚ) (c : City) : String :=
  if c.data_source = some DataSource.static then ("#9ca3af")
  else aqiMarkerColour pm25

/-! ## View layer: `WashoutSimulator.tsx` -/

/-- A JavaScript number as observed by the simulator component after
`parseFloat`: NaN, one of the infinities, or a finite value. -/
inductive JsNumber
  | nan
  | posInf
  | negInf
  | finite (val : ℚ)
deriving DecidableEq

/-- JavaScript `isNaN`. -/
def JsNumber.isNaN : JsNumber → Bool :=
  fun n => match n with | .nan => true | _ => false

/-- JavaScript `isFinite`. -/
def JsNumber.isFinite : JsNumber → Bool :=
  fun n => match n with | .finite _ => true | _ => false

/-- The JavaScript comparison `n > 0` (NaN compares false; `Infinity > 0`
is true). -/
def JsNumber.gtZero : JsNumber → Bool :=
  fun n =>
    match n with
    | .finite v => decide (0 < v)
    | .posInf => true
    | _ => false

/-- The `simulationData` record lifted to the chart. -/
structure SimulationData where
  cityName : String
  original : ℚ
  simulated : ℚ
deriving DecidableEq

/-- The React state of `WashoutSimulator` together with the `cities` list
lifted from `App`.  `rainField` and `durField` hold the `parseFloat` of the
two text inputs. -/
structure SimulatorState where
  cities : List City
  originalCities : List City
  cityIdx : Int
  rainField : JsNumber
  durField : JsNumber
  result : Option ℚ
  error : Option String
  isLoading : Bool
  simulationData : Option SimulationData
deriving DecidableEq

/-- `selCity` of `WashoutSimulator.tsx` line 27:
`cityIdx >= 0 ? (originalCities[cityIdx] || cities[cityIdx]) : null`. -/
def selCity (st : SimulatorState) : Option City :=
  if 0 ≤ st.cityIdx then
    st.originalCities[st.cityIdx.toNat]? <|> st.cities[st.cityIdx.toNat]?
  else none

/-- What `run()` does before any network traffic. -/
inductive RunAction
  | blocked
  | rejected (msg : String)
  | request (c : City) (rain dur : JsNumber)
deriving DecidableEq

/-- The guard sequence of `run()` (`WashoutSimulator.tsx` lines 29-65): the
`isLoading` double-click guard returns silently; a missing city or a
rain/duration value that is NaN or not `> 0`, or a city PM2.5 not `> 0`,
sets an error and returns; otherwise the `/api/washout` request is issued
with the validated values. -/
def runValidation (st : SimulatorState) : RunAction :=
  if st.isLoading then RunAction.blocked
  else
    match selCity st with
    | none => RunAction.rejected ("Please select a city")
    | some c =>
        if st.rainField.isNaN || !st.rainField.gtZero then
          RunAction.rejected ("Rainfall intensity must be greater than 0")
        else if st.durField.isNaN || !st.durField.gtZero then
          RunAction.rejected ("Duration must be greater than 0")
        else if c.pm25 ≤ 0 then
          RunAction.rejected
            ("Invalid PM2.5 data for selected city. Please try refreshing the data or select a different city.")
        else RunAction.request c st.rainField st.durField

/-- One full `run()` click, given the numeric value `f` the
`/api/washout` endpoint responds with on the request path: on success the
cities list is overwritten at the selected index only when `result` was
still null (lines 75-81), then `result` and `simulationData` are set. -/
def runStep (st : SimulatorState) (f : ℚ) : SimulatorState :=
  match runValidation st with
  | RunAction.blocked => st
  | RunAction.rejected msg =>
      ⟨st.cities, st.originalCities, st.cityIdx, st.rainField, st.durField,
        st.result, some msg, st.isLoading, st.simulationData⟩
  | RunAction.request c _ _ =>
      let newCities :=
        if st.result = none then
          st.cities.set st.cityIdx.toNat
            ⟨c.city, c.lat, c.lon, f, c.population, c.region, c.data_source,
              c.last_updated⟩
        else st.cities
      ⟨newCities, st.originalCities, st.cityIdx, st.rainField, st.durField,
        some f, none, st.isLoading, some ⟨c.city, c.pm25, f⟩⟩

/-- `handleInputChange` (`WashoutSimulator.tsx` lines 113-123): store the
new field value and reset `result`, `error` and `simulationData`. -/
def handleInputChange (st : SimulatorState) (fieldIsRain : Bool)
    (value : JsNumber) : SimulatorState :=
  ⟨st.cities, st.originalCities, st.cityIdx,
    (if fieldIsRain then value else st.rainField),
    (if fieldIsRain then st.durField else value),
    none, none, st.isLoading, none⟩

/-- The `disabled` attribute of a simulator city option
(`WashoutSimulator.tsx` line 198): `city.data_source !== 'real_time'`. -/
def citySelectorDisabled (c : City) : Bool :=
  decide (c.data_source ≠ some DataSource.real_time)

/-- The whole system as the view layer sees it: the simulator component
state plus the backend Freshness Cache.  Modelled from the spec: the
`/api/washout` handler evaluates the pure, stateless `simulate` and touches
no other component, so a `run()` click changes only the component state. -/
structure SystemState where
  sim : SimulatorState
  cache : Cache

/-- One `run()` click at system level: the component state steps with the
response `f`; the Freshness Cache is not written by the washout path. -/
def systemRunStep (sys : SystemState) (f : ℚ) : SystemState :=
  ⟨runStep sys.sim f, sys.cache⟩

/-! ## Theorems -/

theorem mem_of_mem_displayTail {l : List City} {c : City}
    (hc : c ∈ (l.insertionSort cityOrder).take 10) : c ∈ l :=
  (List.perm_insertionSort cityOrder l).mem_iff.1 (List.take_subset _ _ hc)

theorem sorted_displayTail (l : List City) :
    ((l.insertionSort cityOrder).take 10).Sorted cityOrder :=
  List.Pairwise.sublist (List.take_sublist _ _) (List.sorted_insertionSort cityOrder l)

theorem length_displayTail (l : List City) :
    ((l.insertionSort cityOrder).take 10).length ≤ 10 := by
  simp [List.length_take]

/-- C8: for every cities list and selected region, the displayed city list
contains only cities of the list whose region equals the selection (all
cities pass the filter when the selection is Global), is sorted descending
by population with descending PM2.5 as tie-break (missing population
treated as 0), and has at most 10 entries. -/
theorem displayedCities_spec_c8 (cities : List City) (sel : String)
    (hsel : sel ≠ ("Global")) :
    (∀ c ∈ displayedCities cities sel, c ∈ cities ∧ c.region = some sel)
  ∧ (∀ c ∈ displayedCities cities ("Global"), c ∈ cities)
  ∧ (displayedCities cities sel).Sorted cityOrder
  ∧ (displayedCities cities ("Global")).Sorted cityOrder
  ∧ (displayedCities cities sel).length ≤ 10
  ∧ (displayedCities cities ("Global")).length ≤ 10 := by
  unfold displayedCities
  rw [if_neg hsel, if_pos rfl]
  refine ⟨?_, ?_, sorted_displayTail _, sorted_displayTail _,
    length_displayTail _, length_displayTail _⟩
  · intro c hc
    have hf := mem_of_mem_displayTail hc
    have := List.mem_filter.1 hf
    exact ⟨this.1, of_decide_eq_true this.2⟩
  · intro c hc
    exact mem_of_mem_displayTail hc

/-- Witness for C8 at a concrete two-city list and a non-Global region. -/
theorem displayedCities_spec_c8_witness :
    (("South Asia") : String) ≠ ("Global") ∧
    ((∀ c ∈ displayedCities
        [⟨("Delhi"), 28, 77, 110, some 33, some ("South Asia"), some DataSource.real_time, none⟩,
         ⟨("Oslo"), 59, 10, 8, some 1, some ("Western Europe"), some DataSource.static, none⟩]
        ("South Asia"),
        c ∈ [⟨("Delhi"), 28, 77, 110, some 33, some ("South Asia"), some DataSource.real_time, none⟩,
             ⟨("Oslo"), 59, 10, 8, some 1, some ("Western Europe"), some DataSource.static, none⟩]
          ∧ c.region = some ("South Asia"))
    ∧ (∀ c ∈ displayedCities
        [⟨("Delhi"), 28, 77, 110, some 33, some ("South Asia"), some DataSource.real_time, none⟩,
         ⟨("Oslo"), 59, 10, 8, some 1, some ("Western Europe"), some DataSource.static, none⟩]
        ("Global"),
        c ∈ [⟨("Delhi"), 28, 77, 110, some 33, some ("South Asia"), some DataSource.real_time, none⟩,
             ⟨("Oslo"), 59, 10, 8, some 1, some ("Western Europe"), some DataSource.static, none⟩])
    ∧ (displayedCities
        [⟨("Delhi"), 28, 77, 110, some 33, some ("South Asia"), some DataSource.real_time, none⟩,
         ⟨("Oslo"), 59, 10, 8, some 1, some ("Western Europe"), some DataSource.static, none⟩]
        ("South Asia")).Sorted cityOrder
    ∧ (displayedCities
        [⟨("Delhi"), 28, 77, 110, some 33, some ("South Asia"), some DataSource.real_time, none⟩,
         ⟨("Oslo"), 59, 10, 8, some 1, some ("Western Europe"), some DataSource.static, none⟩]
        ("Global")).Sorted cityOrder
    ∧ (displayedCities
        [⟨("Delhi"), 28, 77, 110, some 33, some ("South Asia"), some DataSource.real_time, none⟩,
         ⟨("Oslo"), 59, 10, 8, some 1, some ("Western Europe"), some DataSource.static, none⟩]
        ("South Asia")).length ≤ 10
    ∧ (displayedCities
        [⟨("Delhi"), 28, 77, 110, some 33, some ("South Asia"), some DataSource.real_time, none⟩,
         ⟨("Oslo"), 59, 10, 8, some 1, some ("Western Europe"), some DataSource.static, none⟩]
        ("Global")).length ≤ 10) :=
  ⟨by decide, displayedCities_spec_c8 _ _ (by decide)⟩

theorem aqiMarkerColour_breakpoints (pm : ℚ) :
    (aqiMarkerColour pm = ("#7e0023") ↔ 301 ≤ pm)
  ∧ (aqiMarkerColour pm = ("#8f3f97") ↔ 201 ≤ pm ∧ pm < 301)
  ∧ (aqiMarkerColour pm = ("#ff0000") ↔ 151 ≤ pm ∧ pm < 201)
  ∧ (aqiMarkerColour pm = ("#ff7e00") ↔ 101 ≤ pm ∧ pm < 151)
  ∧ (aqiMarkerColour pm = ("#ffff00") ↔ 51 ≤ pm ∧ pm < 101)
  ∧ (aqiMarkerColour pm = ("#00e400") ↔ pm < 51) := by
  unfold aqiMarkerColour
  split_ifs with h1 h2 h3 h4 h5 <;>
    refine ⟨?_, ?_, ?_, ?_, ?_, ?_⟩ <;> simp_all <;>
      first
        | linarith
        | (intro h0; linarith)

/-- C9 counterexample: a city whose `data_source` is missing (hence not
`real_time`) gets the gray chart bar but a threshold-coloured map marker,
so the claim that the map marker is gray for every non-`real_time` city is
false. -/
theorem colours_c9_counterexample :
    chartBarColour ⟨("X"), 0, 0, 30, none, none, none, none⟩
      = ("rgba(180, 180, 180, 0.85)")
  ∧ (⟨("X"), 0, 0, 30, none, none, none, none⟩ : City).data_source
      ≠ some DataSource.real_time
  ∧ getMarkerColor 30 ⟨("X"), 0, 0, 30, none, none, none, none⟩ = ("#00e400")
  ∧ ("#00e400") ≠ ("#9ca3af") := by
  refine ⟨by decide, by decide, by decide, by decide⟩

/-- C9 amended: the chart bar is gray exactly when `data_source` is not
`real_time`; the map marker is gray exactly when `data_source` is `static`
(a city with a missing `data_source` keeps the threshold colour on the
map); the threshold scheme with breakpoints 51, 101, 151, 201, 301 is what
both use otherwise. -/
theorem colours_c9 (c : City) :
    chartBarColour c =
      (if c.data_source = some DataSource.real_time then aqiChartColour c.pm25
       else ("rgba(180, 180, 180, 0.85)"))
  ∧ getMarkerColor c.pm25 c =
      (if c.data_source = some DataSource.static then ("#9ca3af")
       else aqiMarkerColour c.pm25)
  ∧ (aqiMarkerColour c.pm25 = ("#ffff00") ↔ 51 ≤ c.pm25 ∧ c.pm25 < 101)
  ∧ (aqiMarkerColour c.pm25 = ("#ff7e00") ↔ 101 ≤ c.pm25 ∧ c.pm25 < 151)
  ∧ (aqiMarkerColour c.pm25 = ("#ff0000") ↔ 151 ≤ c.pm25 ∧ c.pm25 < 201)
  ∧ (aqiMarkerColour c.pm25 = ("#8f3f97") ↔ 201 ≤ c.pm25 ∧ c.pm25 < 301)
  ∧ (aqiMarkerColour c.pm25 = ("#7e0023") ↔ 301 ≤ c.pm25) := by
  have hb := aqiMarkerColour_breakpoints c.pm25
  refine ⟨?_, rfl, hb.2.2.2.2.1, hb.2.2.2.1, hb.2.2.1, hb.2.1, hb.1⟩
  unfold chartBarColour
  by_cases h : c.data_source = some DataSource.real_time <;> simp [h]

/-- C10 counterexample: with a real_time city selected, rainfall parsing to
Infinity and a valid duration, `run()` issues the `/api/washout` request
even though the rainfall value is not finite — the code only rejects NaN
and values not `> 0`. -/
theorem run_guard_c10_counterexample :
    runValidation
      ⟨[⟨("Delhi"), 28, 77, 110, some 33, some ("South Asia"), some DataSource.real_time, none⟩],
       [⟨("Delhi"), 28, 77, 110, some 33, some ("South Asia"), some DataSource.real_time, none⟩],
       0, JsNumber.posInf, JsNumber.finite 2, none, none, false, none⟩
      = RunAction.request
          ⟨("Delhi"), 28, 77, 110, some 33, some ("South Asia"), some DataSource.real_time, none⟩
          JsNumber.posInf (JsNumber.finite 2)
  ∧ JsNumber.posInf.isFinite = false := by
  refine ⟨by decide, by decide⟩

theorem runValidation_eval_loading {st : SimulatorState}
    (hL : st.isLoading = true) : runValidation st = RunAction.blocked := by
  unfold runValidation
  rw [if_pos hL]

theorem runValidation_eval_noCity {st : SimulatorState}
    (hL : st.isLoading = false) (hS : selCity st = none) :
    runValidation st = RunAction.rejected ("Please select a city") := by
  unfold runValidation
  rw [hL, hS]
  rfl

theorem runValidation_eval_badRain {st : SimulatorState} {cc : City}
    (hL : st.isLoading = false) (hS : selCity st = some cc)
    (h1 : (st.rainField.isNaN || !st.rainField.gtZero) = true) :
    runValidation st
      = RunAction.rejected ("Rainfall intensity must be greater than 0") := by
  unfold runValidation
  rw [hL, hS]
  simp only [Bool.false_eq_true, if_false, if_pos h1]

theorem runValidation_eval_badDur {st : SimulatorState} {cc : City}
    (hL : st.isLoading = false) (hS : selCity st = some cc)
    (h1 : ¬(st.rainField.isNaN || !st.rainField.gtZero) = true)
    (h2 : (st.durField.isNaN || !st.durField.gtZero) = true) :
    runValidation st
      = RunAction.rejected ("Duration must be greater than 0") := by
  unfold runValidation
  rw [hL, hS]
  simp only [Bool.false_eq_true, if_false, if_neg h1, if_pos h2]

theorem runValidation_eval_badPm {st : SimulatorState} {cc : City}
    (hL : st.isLoading = false) (hS : selCity st = some cc)
    (h1 : ¬(st.rainField.isNaN || !st.rainField.gtZero) = true)
    (h2 : ¬(st.durField.isNaN || !st.durField.gtZero) = true)
    (h3 : cc.pm25 ≤ 0) :
    runValidation st
      = RunAction.rejected
          ("Invalid PM2.5 data for selected city. Please try refreshing the data or select a different city.") := by
  unfold runValidation
  rw [hL, hS]
  simp only [Bool.false_eq_true, if_false, if_neg h1, if_neg h2, if_pos h3]

theorem runValidation_eval_ok {st : SimulatorState} {cc : City}
    (hL : st.isLoading = false) (hS : selCity st = some cc)
    (h1 : ¬(st.rainField.isNaN || !st.rainField.gtZero) = true)
    (h2 : ¬(st.durField.isNaN || !st.durField.gtZero) = true)
    (h3 : ¬cc.pm25 ≤ 0) :
    runValidation st = RunAction.request cc st.rainField st.durField := by
  unfold runValidation
  rw [hL, hS]
  simp only [Bool.false_eq_true, if_false, if_neg h1, if_neg h2, if_neg h3]

theorem gtZero_not_isNaN {n : JsNumber} (h : n.gtZero = true) :
    n.isNaN = false := by
  cases n <;> simp_all [JsNumber.gtZero, JsNumber.isNaN]

/-- C10 amended: the selector disables exactly the non-real_time cities;
`run()` issues a request iff it is not already loading, a city is selected,
both fields parse to values comparing `> 0` (NaN is rejected but Infinity
passes, so finiteness is not enforced) and the selected city's PM2.5 is
`> 0`; every rejected validation sets an error message and leaves the
cities list unchanged; when already loading, `run()` returns silently. -/
theorem run_guard_c10 (st : SimulatorState) (c : City) :
    (citySelectorDisabled c = true ↔ c.data_source ≠ some DataSource.real_time)
  ∧ ((∃ c0 r d, runValidation st = RunAction.request c0 r d) ↔
       (st.isLoading = false
        ∧ (∃ c0, selCity st = some c0 ∧ 0 < c0.pm25)
        ∧ st.rainField.gtZero = true
        ∧ st.durField.gtZero = true))
  ∧ (∀ msg f, runValidation st = RunAction.rejected msg →
       (runStep st f).error = some msg ∧ (runStep st f).cities = st.cities)
  ∧ (runValidation st = RunAction.blocked ↔ st.isLoading = true)
  ∧ (st.isLoading = false →
       (¬ ∃ c0 r d, runValidation st = RunAction.request c0 r d) →
       ∃ msg, runValidation st = RunAction.rejected msg) := by
  have hcase : ∀ (st' : SimulatorState), st'.isLoading = false →
      (∃ msg, runValidation st' = RunAction.rejected msg) ∨
      (∃ cc, selCity st' = some cc ∧ ¬(st'.rainField.isNaN || !st'.rainField.gtZero) = true ∧
        ¬(st'.durField.isNaN || !st'.durField.gtZero) = true ∧ ¬cc.pm25 ≤ 0 ∧
        runValidation st' = RunAction.request cc st'.rainField st'.durField) := by
    intro st' hL
    cases hS : selCity st' with
    | none => exact Or.inl ⟨_, runValidation_eval_noCity hL hS⟩
    | some cc =>
        by_cases h1 : (st'.rainField.isNaN || !st'.rainField.gtZero) = true
        · exact Or.inl ⟨_, runValidation_eval_badRain hL hS h1⟩
        · by_cases h2 : (st'.durField.isNaN || !st'.durField.gtZero) = true
          · exact Or.inl ⟨_, runValidation_eval_badDur hL hS h1 h2⟩
          · by_cases h3 : cc.pm25 ≤ 0
            · exact Or.inl ⟨_, runValidation_eval_badPm hL hS h1 h2 h3⟩
            · exact Or.inr ⟨cc, rfl, h1, h2, h3, runValidation_eval_ok hL hS h1 h2 h3⟩
  refine ⟨by simp [citySelectorDisabled], ?_, ?_, ?_, ?_⟩
  · constructor
    · rintro ⟨c0, r, d, h⟩
      by_cases hL : st.isLoading = true
      · rw [runValidation_eval_loading hL] at h; cases h
      · have hL' : st.isLoading = false := Bool.eq_false_iff.2 hL
        rcases hcase st hL' with ⟨msg, hmsg⟩ | ⟨cc, hS, h1, h2, h3, hval⟩
        · rw [hmsg] at h; cases h
        · rw [hval] at h
          have hsplit : ∀ n : JsNumber, ¬(n.isNaN || !n.gtZero) = true →
              n.gtZero = true := by
            intro n hn
            cases hgt : n.gtZero
            · exfalso; apply hn; rw [hgt]; simp
            · rfl
          exact ⟨hL', ⟨cc, hS, lt_of_not_le h3⟩, hsplit _ h1, hsplit _ h2⟩
    · rintro ⟨hL, ⟨c0, hS, hpm⟩, hrain, hdur⟩
      refine ⟨c0, st.rainField, st.durField,
        runValidation_eval_ok hL hS ?_ ?_ (not_le.2 hpm)⟩
      · simp [gtZero_not_isNaN hrain, hrain]
      · simp [gtZero_not_isNaN hdur, hdur]
  · intro msg f h
    unfold runStep
    rw [h]
    exact ⟨rfl, rfl⟩
  · constructor
    · intro h
      by_cases hL : st.isLoading = true
      · exact hL
      · have hL' : st.isLoading = false := Bool.eq_false_iff.2 hL
        rcases hcase st hL' with ⟨msg, hmsg⟩ | ⟨cc, _, _, _, _, hval⟩
        · rw [hmsg] at h; cases h
        · rw [hval] at h; cases h
    · exact runValidation_eval_loading
  · intro hL hreq
    rcases hcase st hL with hrej | ⟨cc, _, _, _, _, hval⟩
    · exact hrej
    · exact absurd ⟨cc, st.rainField, st.durField, hval⟩ hreq

/-- C3: once a simulation has run successfully, a repeated run does not
re-apply the PM2.5 overwrite to the cities list (the `result === null`
guard), and the simulator's run path never mutates the backend Freshness
Cache; changing an input resets `result`, re-arming the one-time update. -/
theorem simulator_onetime_c3 (sys : SystemState) (f g : ℚ) (c : City)
    (r d : JsNumber) (h : runValidation sys.sim = RunAction.request c r d) :
    (systemRunStep (systemRunStep sys f) g).sim.cities
      = (systemRunStep sys f).sim.cities
  ∧ (systemRunStep sys f).cache = sys.cache
  ∧ (systemRunStep (systemRunStep sys f) g).cache = sys.cache
  ∧ (∀ fieldIsRain v, (handleInputChange sys.sim fieldIsRain v).result = none) := by
  refine ⟨?_, rfl, rfl, fun fieldIsRain v => rfl⟩
  show (runStep (runStep sys.sim f) g).cities = (runStep sys.sim f).cities
  have h1 : (runStep sys.sim f).result = some f := by
    unfold runStep; rw [h]
  set st1 := runStep sys.sim f with hst1
  cases hv : runValidation st1 with
  | blocked => unfold runStep; rw [hv]
  | rejected msg => unfold runStep; rw [hv]
  | request c' r' d' =>
      unfold runStep
      rw [hv]
      simp [h1]

/-- Witness for C3: a concrete ready-to-run simulator state over one
real_time city, with an empty backend cache. -/
theorem simulator_onetime_c3_witness :
    runValidation
      (SystemState.mk
        ⟨[⟨("Delhi"), 28, 77, 110, some 33, some ("South Asia"), some DataSource.real_time, none⟩],
         [⟨("Delhi"), 28, 77, 110, some 33, some ("South Asia"), some DataSource.real_time, none⟩],
         0, JsNumber.finite 5, JsNumber.finite 2, none, none, false, none⟩
        emptyCache).sim
      = RunAction.request
          ⟨("Delhi"), 28, 77, 110, some 33, some ("South Asia"), some DataSource.real_time, none⟩
          (JsNumber.finite 5) (JsNumber.finite 2)
  ∧ ((systemRunStep (systemRunStep
        (SystemState.mk
          ⟨[⟨("Delhi"), 28, 77, 110, some 33, some ("South Asia"), some DataSource.real_time, none⟩],
           [⟨("Delhi"), 28, 77, 110, some 33, some ("South Asia"), some DataSource.real_time, none⟩],
           0, JsNumber.finite 5, JsNumber.finite 2, none, none, false, none⟩
          emptyCache) 20) 20).sim.cities
      = (systemRunStep
          (SystemState.mk
            ⟨[⟨("Delhi"), 28, 77, 110, some 33, some ("South Asia"), some DataSource.real_time, none⟩],
             [⟨("Delhi"), 28, 77, 110, some 33, some ("South Asia"), some DataSource.real_time, none⟩],
             0, JsNumber.finite 5, JsNumber.finite 2, none, none, false, none⟩
            emptyCache) 20).sim.cities
    ∧ (systemRunStep
        (SystemState.mk
          ⟨[⟨("Delhi"), 28, 77, 110, some 33, some ("South Asia"), some DataSource.real_time, none⟩],
           [⟨("Delhi"), 28, 77, 110, some 33, some ("South Asia"), some DataSource.real_time, none⟩],
           0, JsNumber.finite 5, JsNumber.finite 2, none, none, false, none⟩
          emptyCache) 20).cache
      = (SystemState.mk
          ⟨[⟨("Delhi"), 28, 77, 110, some 33, some ("South Asia"), some DataSource.real_time, none⟩],
           [⟨("Delhi"), 28, 77, 110, some 33, some ("South Asia"), some DataSource.real_time, none⟩],
           0, JsNumber.finite 5, JsNumber.finite 2, none, none, false, none⟩
          emptyCache).cache
    ∧ (systemRunStep (systemRunStep
        (SystemState.mk
          ⟨[⟨("Delhi"), 28, 77, 110, some 33, some ("South Asia"), some DataSource.real_time, none⟩],
           [⟨("Delhi"), 28, 77, 110, some 33, some ("South Asia"), some DataSource.real_time, none⟩],
           0, JsNumber.finite 5, JsNumber.finite 2, none, none, false, none⟩
          emptyCache) 20) 20).cache
      = (SystemState.mk
          ⟨[⟨("Delhi"), 28, 77, 110, some 33, some ("South Asia"), some DataSource.real_time, none⟩],
           [⟨("Delhi"), 28, 77, 110, some 33, some ("South Asia"), some DataSource.real_time, none⟩],
           0, JsNumber.finite 5, JsNumber.finite 2, none, none, false, none⟩
          emptyCache).cache
    ∧ (∀ fieldIsRain v, (handleInputChange
        (SystemState.mk
          ⟨[⟨("Delhi"), 28, 77, 110, some 33, some ("South Asia"), some DataSource.real_time, none⟩],
           [⟨("Delhi"), 28, 77, 110, some 33, some ("South Asia"), some DataSource.real_time, none⟩],
           0, JsNumber.finite 5, JsNumber.finite 2, none, none, false, none⟩
          emptyCache).sim fieldIsRain v).result = none)) :=
  ⟨by decide, simulator_onetime_c3
    (SystemState.mk
      ⟨[⟨("Delhi"), 28, 77, 110, some 33, some ("South Asia"), some DataSource.real_time, none⟩],
       [⟨("Delhi"), 28, 77, 110, some 33, some ("South Asia"), some DataSource.real_time, none⟩],
       0, JsNumber.finite 5, JsNumber.finite 2, none, none, false, none⟩
      emptyCache) 20 20
    ⟨("Delhi"), 28, 77, 110, some 33, some ("South Asia"), some DataSource.real_time, none⟩
    (JsNumber.finite 5) (JsNumber.finite 2) (by decide)⟩

theorem write_apply_self (cache : Cache) (reg : CityRecord)
    (outcome : FetchOutcome) (now : Nat) :
    write cache reg outcome now reg.name
      = some (writeEntry (cache reg.name) reg outcome now) := by
  unfold write
  rw [if_pos rfl]

theorem write_apply_ne (cache : Cache) (reg : CityRecord)
    (outcome : FetchOutcome) (now : Nat) {c : String} (h : c ≠ reg.name) :
    write cache reg outcome now c = cache c := by
  unfold write
  rw [if_neg h]

theorem degrade_tag_ok (cur : Option CachedReading) (reg : CityRecord)
    (hcur : ∀ r, cur = some r →
      (r.source = DataSource.real_time ↔ r.last_fetch ≠ none)) :
    ((degrade cur reg).source = DataSource.real_time
      ↔ (degrade cur reg).last_fetch ≠ none) := by
  cases cur with
  | none => simp [degrade, staticFallback]
  | some r =>
      by_cases hs : r.source = DataSource.real_time
      · have := (hcur r rfl).1 hs
        simp [degrade, hs, this]
      · simp [degrade, hs, staticFallback]

theorem writeEntry_tag_ok (cur : Option CachedReading) (reg : CityRecord)
    (outcome : FetchOutcome) (now : Nat)
    (hcur : ∀ r, cur = some r →
      (r.source = DataSource.real_time ↔ r.last_fetch ≠ none)) :
    ((writeEntry cur reg outcome now).source = DataSource.real_time
      ↔ (writeEntry cur reg outcome now).last_fetch ≠ none) := by
  cases outcome with
  | success v t =>
      by_cases hv : 0 < v
      · simp [writeEntry, hv]
      · simp only [writeEntry, if_neg hv]
        exact degrade_tag_ok cur reg hcur
  | invalid reason => exact degrade_tag_ok cur reg hcur
  | unavailable reason => exact degrade_tag_ok cur reg hcur

theorem applyOps_tag_ok (ops : List CacheOp) (cache : Cache)
    (hc : ∀ c r, cache c = some r →
      (r.source = DataSource.real_time ↔ r.last_fetch ≠ none)) :
    ∀ c r, applyOps ops cache c = some r →
      (r.source = DataSource.real_time ↔ r.last_fetch ≠ none) := by
  induction ops generalizing cache with
  | nil => exact hc
  | cons op rest ih =>
      obtain ⟨reg, o, now⟩ := op
      refine ih (write cache reg o now) ?_
      intro c r hr
      by_cases hcn : c = reg.name
      · subst hcn
        rw [write_apply_self] at hr
        cases hr
        exact writeEntry_tag_ok _ _ _ _ (fun r0 h0 => hc reg.name r0 h0)
      · exact hc c r (by rw [write_apply_ne cache reg o now hcn] at hr; exact hr)

/-- C5 counterexample: after a valid real_time write for Delhi, a write
carrying `success (-5)` (numeric value ≤ 0) leaves the entry tagged
`real_time` (the stale reading is preserved, only the failure count is
bumped), so the claim that the entry is then tagged `static` is false. -/
theorem cache_write_invalid_c5_counterexample :
    write (write emptyCache ⟨("Delhi"), 28, 77, ("South Asia"), 33, 90⟩
        (FetchOutcome.success 55 10) 100)
      ⟨("Delhi"), 28, 77, ("South Asia"), 33, 90⟩
      (FetchOutcome.success (-5) 7) 200 ("Delhi")
      = some ⟨("Delhi"), 55, DataSource.real_time, some 100, 1⟩
  ∧ DataSource.real_time ≠ DataSource.static := by
  refine ⟨by decide, by decide⟩

/-- C5 amended: a write carrying an outcome whose numeric value is `≤ 0`
never installs that value as a `real_time` entry: when the entry is absent
or `static`-tagged, the result is the `static` baseline; when the entry is
currently `real_time` it is preserved unchanged apart from its failure
count (the never-overwrite rule).  Every reachable reading satisfies the
invariant: `real_time`-tagged iff it carries a fetch timestamp. -/
theorem cache_write_invalid_c5 (cache : Cache) (reg : CityRecord) (v : ℚ)
    (t now : Nat) (hv : v ≤ 0) :
    (∀ r, cache reg.name = some r → r.source = DataSource.real_time →
       write cache reg (FetchOutcome.success v t) now reg.name
         = some ⟨r.city, r.pm25, r.source, r.last_fetch, r.failures + 1⟩)
  ∧ (∀ r, cache reg.name = some r → r.source = DataSource.static →
       write cache reg (FetchOutcome.success v t) now reg.name
         = some (staticFallback reg (r.failures + 1)))
  ∧ (cache reg.name = none →
       write cache reg (FetchOutcome.success v t) now reg.name
         = some (staticFallback reg 1))
  ∧ (∀ ops c r, applyOps ops emptyCache c = some r →
       (r.source = DataSource.real_time ↔ r.last_fetch ≠ none)) := by
  have hnv : ¬0 < v := not_lt.2 hv
  refine ⟨?_, ?_, ?_, ?_⟩
  · intro r hr hsrc
    rw [write_apply_self, hr]
    simp [writeEntry, hnv, degrade, hsrc]
  · intro r hr hsrc
    rw [write_apply_self, hr]
    have : ¬r.source = DataSource.real_time := by rw [hsrc]; decide
    simp [writeEntry, hnv, degrade, this]
  · intro hr
    rw [write_apply_self, hr]
    simp [writeEntry, hnv, degrade]
  · intro ops
    exact applyOps_tag_ok ops emptyCache (fun c r h => by cases h)

/-- Witness for C5 at the empty cache, a concrete registry record and the
invalid value `-5`. -/
theorem cache_write_invalid_c5_witness :
    ((-5 : ℚ) ≤ 0)
  ∧ ((∀ r, emptyCache (CityRecord.name ⟨("Delhi"), 28, 77, ("South Asia"), 33, 90⟩) = some r →
        r.source = DataSource.real_time →
        write emptyCache ⟨("Delhi"), 28, 77, ("South Asia"), 33, 90⟩
            (FetchOutcome.success (-5) 7) 200
            (CityRecord.name ⟨("Delhi"), 28, 77, ("South Asia"), 33, 90⟩)
          = some ⟨r.city, r.pm25, r.source, r.last_fetch, r.failures + 1⟩)
    ∧ (∀ r, emptyCache (CityRecord.name ⟨("Delhi"), 28, 77, ("South Asia"), 33, 90⟩) = some r →
        r.source = DataSource.static →
        write emptyCache ⟨("Delhi"), 28, 77, ("South Asia"), 33, 90⟩
            (FetchOutcome.success (-5) 7) 200
            (CityRecord.name ⟨("Delhi"), 28, 77, ("South Asia"), 33, 90⟩)
          = some (staticFallback ⟨("Delhi"), 28, 77, ("South Asia"), 33, 90⟩ (r.failures + 1)))
    ∧ (emptyCache (CityRecord.name ⟨("Delhi"), 28, 77, ("South Asia"), 33, 90⟩) = none →
        write emptyCache ⟨("Delhi"), 28, 77, ("South Asia"), 33, 90⟩
            (FetchOutcome.success (-5) 7) 200
            (CityRecord.name ⟨("Delhi"), 28, 77, ("South Asia"), 33, 90⟩)
          = some (staticFallback ⟨("Delhi"), 28, 77, ("South Asia"), 33, 90⟩ 1))
    ∧ (∀ ops c r, applyOps ops emptyCache c = some r →
        (r.source = DataSource.real_time ↔ r.last_fetch ≠ none))) :=
  ⟨by norm_num,
   cache_write_invalid_c5 emptyCache ⟨("Delhi"), 28, 77, ("South Asia"), 33, 90⟩
     (-5) 7 200 (by norm_num)⟩

theorem applyOps_keeps_static (ops : List CacheOp) (reg : CityRecord)
    (cache : Cache)
    (hno : ∀ op ∈ ops, CacheOp.city op = reg.name →
      (CacheOp.outcome op).validSuccess = false)
    (hcon : ∀ op ∈ ops, CacheOp.city op = reg.name → CacheOp.reg op = reg)
    (hc : cache reg.name = none ∨
      ∃ k, cache reg.name = some (staticFallback reg k)) :
    applyOps ops cache reg.name = none ∨
      ∃ k, applyOps ops cache reg.name = some (staticFallback reg k) := by
  revert hno hcon hc
  induction ops generalizing cache with
  | nil => intro _ _ hc; exact hc
  | cons op rest ih =>
      intro hno hcon hc
      obtain ⟨reg0, o, now⟩ := op
      show applyOps rest (write cache reg0 o now) reg.name = none ∨
        ∃ k, applyOps rest (write cache reg0 o now) reg.name
          = some (staticFallback reg k)
      refine ih (write cache reg0 o now)
        (fun op hop h => hno op (List.mem_cons_of_mem _ hop) h)
        (fun op hop h => hcon op (List.mem_cons_of_mem _ hop) h)
        ?_
      by_cases hname : reg0.name = reg.name
      · have hreg0 : reg = reg0 :=
          (hcon _ (List.mem_cons_self _ _) hname).symm
        subst hreg0
        have ho : o.validSuccess = false :=
          hno _ (List.mem_cons_self _ _) rfl
        rw [write_apply_self]
        right
        have hdeg : degrade (cache reg.name) reg = staticFallback reg 1 ∨
            ∃ k, degrade (cache reg.name) reg = staticFallback reg (k + 1) := by
          rcases hc with h0 | ⟨k, h0⟩
          · rw [h0]; exact Or.inl rfl
          · rw [h0]
            right
            refine ⟨k, ?_⟩
            simp [degrade, staticFallback]
        have hwe : ∃ k, writeEntry (cache reg.name) reg o now
            = staticFallback reg k := by
          cases o with
          | success v t =>
              have hv : ¬0 < v := by
                simp only [FetchOutcome.validSuccess] at ho
                exact of_decide_eq_false ho
              rcases hdeg with h0 | ⟨k, h0⟩
              · exact ⟨1, by simp [writeEntry, hv, h0]⟩
              · exact ⟨k + 1, by simp [writeEntry, hv, h0]⟩
          | invalid reason =>
              rcases hdeg with h0 | ⟨k, h0⟩
              · exact ⟨1, by simp [writeEntry, h0]⟩
              · exact ⟨k + 1, by simp [writeEntry, h0]⟩
          | unavailable reason =>
              rcases hdeg with h0 | ⟨k, h0⟩
              · exact ⟨1, by simp [writeEntry, h0]⟩
              · exact ⟨k + 1, by simp [writeEntry, h0]⟩
        obtain ⟨k, hk⟩ := hwe
        exact ⟨k, by rw [hk]⟩
      · rw [write_apply_ne cache reg0 o now (fun h => hname h.symm)]
        exact hc

/-- C6: for a city never successfully fetched (every write event targeting
it carries an outcome that is not a valid success), `read` returns a
`static`-tagged reading carrying the registry baseline and no fetch
timestamp; `read` is a pure function of the cache and issues no fetch. -/
theorem read_never_fetched_c6 (ops : List CacheOp) (reg : CityRecord)
    (hno : ∀ op ∈ ops, CacheOp.city op = reg.name →
      (CacheOp.outcome op).validSuccess = false)
    (hcon : ∀ op ∈ ops, CacheOp.city op = reg.name → CacheOp.reg op = reg) :
    (readCache (applyOps ops emptyCache) reg).source = DataSource.static
  ∧ (readCache (applyOps ops emptyCache) reg).pm25 = reg.baseline
  ∧ (readCache (applyOps ops emptyCache) reg).last_fetch = none := by
  have h := applyOps_keeps_static ops reg emptyCache hno hcon (Or.inl rfl)
  unfold readCache
  rcases h with h0 | ⟨k, h0⟩ <;> rw [h0] <;>
    exact ⟨rfl, rfl, rfl⟩

/-- Witness for C6: two failed write events for Delhi (an unavailable
fetch, then an invalid non-positive value), after which `read` still
serves the static baseline. -/
theorem read_never_fetched_c6_witness :
    (∀ op ∈ [CacheOp.doWrite ⟨("Delhi"), 28, 77, ("South Asia"), 33, 90⟩
               (FetchOutcome.unavailable ("timeout")) 5,
             CacheOp.doWrite ⟨("Delhi"), 28, 77, ("South Asia"), 33, 90⟩
               (FetchOutcome.success (-3) 6) 7],
        CacheOp.city op = CityRecord.name ⟨("Delhi"), 28, 77, ("South Asia"), 33, 90⟩ →
        (CacheOp.outcome op).validSuccess = false)
  ∧ (∀ op ∈ [CacheOp.doWrite ⟨("Delhi"), 28, 77, ("South Asia"), 33, 90⟩
               (FetchOutcome.unavailable ("timeout")) 5,
             CacheOp.doWrite ⟨("Delhi"), 28, 77, ("South Asia"), 33, 90⟩
               (FetchOutcome.success (-3) 6) 7],
        CacheOp.city op = CityRecord.name ⟨("Delhi"), 28, 77, ("South Asia"), 33, 90⟩ →
        CacheOp.reg op = ⟨("Delhi"), 28, 77, ("South Asia"), 33, 90⟩)
  ∧ ((readCache (applyOps
        [CacheOp.doWrite ⟨("Delhi"), 28, 77, ("South Asia"), 33, 90⟩
           (FetchOutcome.unavailable ("timeout")) 5,
         CacheOp.doWrite ⟨("Delhi"), 28, 77, ("South Asia"), 33, 90⟩
           (FetchOutcome.success (-3) 6) 7] emptyCache)
        ⟨("Delhi"), 28, 77, ("South Asia"), 33, 90⟩).source = DataSource.static
    ∧ (readCache (applyOps
        [CacheOp.doWrite ⟨("Delhi"), 28, 77, ("South Asia"), 33, 90⟩
           (FetchOutcome.unavailable ("timeout")) 5,
         CacheOp.doWrite ⟨("Delhi"), 28, 77, ("South Asia"), 33, 90⟩
           (FetchOutcome.success (-3) 6) 7] emptyCache)
        ⟨("Delhi"), 28, 77, ("South Asia"), 33, 90⟩).pm25
      = CityRecord.baseline ⟨("Delhi"), 28, 77, ("South Asia"), 33, 90⟩
    ∧ (readCache (applyOps
        [CacheOp.doWrite ⟨("Delhi"), 28, 77, ("South Asia"), 33, 90⟩
           (FetchOutcome.unavailable ("timeout")) 5,
         CacheOp.doWrite ⟨("Delhi"), 28, 77, ("South Asia"), 33, 90⟩
           (FetchOutcome.success (-3) 6) 7] emptyCache)
        ⟨("Delhi"), 28, 77, ("South Asia"), 33, 90⟩).last_fetch = none) :=
  ⟨by decide, by decide,
   read_never_fetched_c6
     [CacheOp.doWrite ⟨("Delhi"), 28, 77, ("South Asia"), 33, 90⟩
        (FetchOutcome.unavailable ("timeout")) 5,
      CacheOp.doWrite ⟨("Delhi"), 28, 77, ("South Asia"), 33, 90⟩
        (FetchOutcome.success (-3) 6) 7]
     ⟨("Delhi"), 28, 77, ("South Asia"), 33, 90⟩ (by decide) (by decide)⟩

theorem refreshAll_cache_notMem (registry : List CityRecord)
    (oracle : String → FetchOutcome) (ttl now : Nat) (forced : Bool)
    (cache : Cache) {c : String}
    (hc : c ∉ registry.map CityRecord.name) :
    (refreshAll registry oracle ttl now forced cache).cache c = cache c := by
  induction registry generalizing cache with
  | nil => rfl
  | cons reg rest ih =>
      simp only [List.map_cons, List.mem_cons, not_or] at hc
      unfold refreshAll
      by_cases hcond : (forced || !(isFresh cache reg.name ttl now)) = true
      · rw [if_pos hcond]
        show (refreshAll rest oracle ttl now forced
          (write cache reg (oracle reg.name) now)).cache c
            = cache c
        rw [ih _ hc.2, write_apply_ne _ _ _ _ hc.1]
      · rw [if_neg hcond]
        exact ih _ hc.2

theorem refreshAll_all_fresh (registry : List CityRecord)
    (oracle : String → FetchOutcome) (ttl now : Nat) (cache : Cache)
    (httl : 0 < ttl) (hnd : (registry.map CityRecord.name).Nodup)
    (hsucc : ∀ reg ∈ registry, (oracle reg.name).validSuccess = true) :
    ∀ reg ∈ registry,
      isFresh (refreshAll registry oracle ttl now false cache).cache
        reg.name ttl now = true := by
  induction registry generalizing cache with
  | nil => intro reg h; cases h
  | cons reg rest ih =>
      simp only [List.map_cons, List.nodup_cons] at hnd
      intro reg' hr'
      unfold refreshAll
      by_cases hf : isFresh cache reg.name ttl now = true
      · rw [if_neg (by simp [hf])]
        rcases List.mem_cons.1 hr' with rfl | hmem
        · have hpres : (refreshAll rest oracle ttl now false cache).cache
              reg'.name = cache reg'.name :=
            refreshAll_cache_notMem rest oracle ttl now false cache hnd.1
          unfold isFresh
          rw [hpres]
          unfold isFresh at hf
          exact hf
        · exact ih cache hnd.2
            (fun r hr => hsucc r (List.mem_cons_of_mem _ hr)) reg' hmem
      · rw [if_pos (by simp [hf])]
        show isFresh (refreshAll rest oracle ttl now false
          (write cache reg (oracle reg.name) now)).cache reg'.name ttl now
            = true
        rcases List.mem_cons.1 hr' with rfl | hmem
        · have hpres : (refreshAll rest oracle ttl now false
              (write cache reg' (oracle reg'.name) now)).cache reg'.name
                = write cache reg' (oracle reg'.name) now reg'.name :=
            refreshAll_cache_notMem rest oracle ttl now false _ hnd.1
          unfold isFresh
          rw [hpres, write_apply_self]
          have hvs := hsucc reg' (List.mem_cons_self _ _)
          cases ho : oracle reg'.name with
          | success v t =>
              rw [ho] at hvs
              have hv : 0 < v := of_decide_eq_true hvs
              simp [writeEntry, hv, Nat.sub_self, httl]
          | invalid reason => rw [ho] at hvs; cases hvs
          | unavailable reason => rw [ho] at hvs; cases hvs
        · exact ih (write cache reg (oracle reg.name) now) hnd.2
            (fun r hr => hsucc r (List.mem_cons_of_mem _ hr)) reg' hmem

theorem refreshAll_skips_fresh (registry : List CityRecord)
    (oracle : String → FetchOutcome) (ttl now : Nat) (cache : Cache)
    (hfresh : ∀ reg ∈ registry, isFresh cache reg.name ttl now = true) :
    refreshAll registry oracle ttl now false cache = ⟨cache, []⟩ := by
  induction registry with
  | nil => rfl
  | cons reg rest ih =>
      unfold refreshAll
      rw [if_neg (by simp [hfresh reg (List.mem_cons_self _ _)])]
      exact ih (fun r hr => hfresh r (List.mem_cons_of_mem _ hr))

theorem refreshAll_fetched_sublist (registry : List CityRecord)
    (oracle : String → FetchOutcome) (ttl now : Nat) (forced : Bool)
    (cache : Cache) :
    (refreshAll registry oracle ttl now forced cache).fetched.Sublist
      (registry.map CityRecord.name) := by
  induction registry generalizing cache with
  | nil => exact List.Sublist.refl _
  | cons reg rest ih =>
      unfold refreshAll
      rw [List.map_cons]
      by_cases hcond : (forced || !(isFresh cache reg.name ttl now)) = true
      · rw [if_pos hcond]
        exact List.Sublist.cons₂ _ (ih _)
      · rw [if_neg hcond]
        exact List.Sublist.cons _ (ih _)

/-- C7: if a `refreshAll` pass over a registry of distinct cities receives
a valid success for every city it fetches, an immediately subsequent
`refreshAll` with the same TTL (at the same instant) issues no upstream
fetches at all — whatever its oracle would answer — and leaves the cache
unchanged; moreover a single pass never fetches any city twice (no
within-pass retry). -/
theorem refreshAll_idempotent_c7 (registry : List CityRecord)
    (oracle oracle2 : String → FetchOutcome) (ttl now : Nat) (cache0 : Cache)
    (httl : 0 < ttl) (hnd : (registry.map CityRecord.name).Nodup)
    (hsucc : ∀ reg ∈ registry, (oracle reg.name).validSuccess = true) :
    (refreshAll registry oracle2 ttl now false
        (refreshAll registry oracle ttl now false cache0).cache).fetched = []
  ∧ (refreshAll registry oracle2 ttl now false
        (refreshAll registry oracle ttl now false cache0).cache).cache
      = (refreshAll registry oracle ttl now false cache0).cache
  ∧ (refreshAll registry oracle ttl now false cache0).fetched.Nodup := by
  have hfresh := refreshAll_all_fresh registry oracle ttl now cache0
    httl hnd hsucc
  have hskip := refreshAll_skips_fresh registry oracle2 ttl now
    (refreshAll registry oracle ttl now false cache0).cache hfresh
  refine ⟨by rw [hskip], by rw [hskip], ?_⟩
  exact List.Nodup.sublist
    (refreshAll_fetched_sublist registry oracle ttl now false cache0) hnd

/-- Witness for C7: a two-city registry, an all-success oracle, a one-hour
TTL and the empty cache. -/
theorem refreshAll_idempotent_c7_witness :
    (0 < 3600)
  ∧ (([⟨("Delhi"), 28, 77, ("South Asia"), 33, 90⟩,
       ⟨("Oslo"), 59, 10, ("Western Europe"), 1, 7⟩] :
        List CityRecord).map CityRecord.name).Nodup
  ∧ (∀ reg ∈ ([⟨("Delhi"), 28, 77, ("South Asia"), 33, 90⟩,
       ⟨("Oslo"), 59, 10, ("Western Europe"), 1, 7⟩] : List CityRecord),
      ((fun _ => FetchOutcome.success 42 5) reg.name).validSuccess = true)
  ∧ ((refreshAll [⟨("Delhi"), 28, 77, ("South Asia"), 33, 90⟩,
        ⟨("Oslo"), 59, 10, ("Western Europe"), 1, 7⟩]
        (fun _ => FetchOutcome.unavailable ("down")) 3600 0 false
        (refreshAll [⟨("Delhi"), 28, 77, ("South Asia"), 33, 90⟩,
          ⟨("Oslo"), 59, 10, ("Western Europe"), 1, 7⟩]
          (fun _ => FetchOutcome.success 42 5) 3600 0 false
          emptyCache).cache).fetched = []
    ∧ (refreshAll [⟨("Delhi"), 28, 77, ("South Asia"), 33, 90⟩,
        ⟨("Oslo"), 59, 10, ("Western Europe"), 1, 7⟩]
        (fun _ => FetchOutcome.unavailable ("down")) 3600 0 false
        (refreshAll [⟨("Delhi"), 28, 77, ("South Asia"), 33, 90⟩,
          ⟨("Oslo"), 59, 10, ("Western Europe"), 1, 7⟩]
          (fun _ => FetchOutcome.success 42 5) 3600 0 false
          emptyCache).cache).cache
      = (refreshAll [⟨("Delhi"), 28, 77, ("South Asia"), 33, 90⟩,
          ⟨("Oslo"), 59, 10, ("Western Europe"), 1, 7⟩]
          (fun _ => FetchOutcome.success 42 5) 3600 0 false
          emptyCache).cache
    ∧ (refreshAll [⟨("Delhi"), 28, 77, ("South Asia"), 33, 90⟩,
        ⟨("Oslo"), 59, 10, ("Western Europe"), 1, 7⟩]
        (fun _ => FetchOutcome.success 42 5) 3600 0 false
        emptyCache).fetched.Nodup) :=
  ⟨by norm_num, by decide, by decide,
   refreshAll_idempotent_c7
     [⟨("Delhi"), 28, 77, ("South Asia"), 33, 90⟩,
      ⟨("Oslo"), 59, 10, ("Western Europe"), 1, 7⟩]
     (fun _ => FetchOutcome.success 42 5)
     (fun _ => FetchOutcome.unavailable ("down")) 3600 0 emptyCache
     (by norm_num) (by decide) (by decide)⟩

/-- C2: the simulation fails with `InvalidInput` exactly when an argument
is out of domain (`pm25 ≤ 0`, `rainIntensity ≤ 0` or `durationHours ≤ 0`;
in the real-number embedding every representable argument is finite), and
no washout value is produced in those cases; in particular it fails for
`pm25 = 0`, for `rainIntensity = -5`, and for `durationHours = 0`. -/
theorem simulate_invalid_c2 (coeff pm r d : ℝ) :
    ((simulate coeff pm r d = Except.error SimError.invalidInput) ↔
      (pm ≤ 0 ∨ r ≤ 0 ∨ d ≤ 0))
  ∧ simulate coeff 0 10 2 = Except.error SimError.invalidInput
  ∧ simulate coeff 100 (-5) 2 = Except.error SimError.invalidInput
  ∧ simulate coeff 100 10 0 = Except.error SimError.invalidInput := by
  refine ⟨⟨?_, ?_⟩, ?_, ?_, ?_⟩
  · intro h
    by_contra hn
    rw [simulate, if_neg hn] at h
    cases h
  · intro h
    rw [simulate, if_pos h]
  · rw [simulate, if_pos (by norm_num)]
  · rw [simulate, if_pos (by norm_num)]
  · rw [simulate, if_pos (by norm_num)]

/-- C4: on finite positive inputs the simulation succeeds, its value is
strictly positive (the epsilon floor), and it never increases when the
rain intensity or the duration increases. -/
theorem washout_positive_monotone_c4 (coeff pm r1 r2 d1 d2 : ℝ)
    (hpm : 0 < pm) (hc : 0 ≤ coeff) (hr1 : 0 < r1) (hd1 : 0 < d1)
    (hr : r1 ≤ r2) (hd : d1 ≤ d2) :
    simulate coeff pm r1 d1 = Except.ok (washout coeff pm r1 d1)
  ∧ 0 < washout coeff pm r1 d1
  ∧ washout coeff pm r2 d1 ≤ washout coeff pm r1 d1
  ∧ washout coeff pm r1 d2 ≤ washout coeff pm r1 d1 := by
  have hEPS : (0 : ℝ) < EPS := by norm_num [EPS]
  refine ⟨?_, ?_, ?_, ?_⟩
  · rw [simulate, if_neg (by push_neg; exact ⟨hpm, hr1, hd1⟩)]
  · exact lt_of_lt_of_le hEPS (le_max_left _ _)
  · apply max_le_max le_rfl
    apply mul_le_mul_of_nonneg_left _ hpm.le
    apply Real.exp_le_exp.2
    nlinarith [mul_nonneg (mul_nonneg hc (sub_nonneg.2 hr)) hd1.le]
  · apply max_le_max le_rfl
    apply mul_le_mul_of_nonneg_left _ hpm.le
    apply Real.exp_le_exp.2
    nlinarith [mul_nonneg (mul_nonneg hc hr1.le) (sub_nonneg.2 hd)]

/-- Witness for C4 at `coeff = 0.08`, `pm25 = 100`, rain 5 → 10, duration
2 → 4. -/
theorem washout_positive_monotone_c4_witness :
    ((0 : ℝ) < 100 ∧ (0 : ℝ) ≤ 8/100 ∧ (0 : ℝ) < 5 ∧ (0 : ℝ) < 2
     ∧ (5 : ℝ) ≤ 10 ∧ (2 : ℝ) ≤ 4)
  ∧ (simulate (8/100) 100 5 2 = Except.ok (washout (8/100) 100 5 2)
    ∧ 0 < washout (8/100) 100 5 2
    ∧ washout (8/100) 100 10 2 ≤ washout (8/100) 100 5 2
    ∧ washout (8/100) 100 5 4 ≤ washout (8/100) 100 5 2) :=
  ⟨by norm_num,
   washout_positive_monotone_c4 (8/100) 100 5 10 2 4 (by norm_num)
     (by norm_num) (by norm_num) (by norm_num) (by norm_num) (by norm_num)⟩

theorem hundred_exp_neg_bounds :
    (20185/1000 : ℝ) ≤ 100 * Real.exp (-(8/5))
  ∧ 100 * Real.exp (-(8/5)) ≤ 20195/1000 := by
  have habs : |(-(4/5) : ℝ)| ≤ 1 := by
    rw [abs_of_nonpos (by norm_num : (-(4/5) : ℝ) ≤ 0)]
    norm_num
  have hb := Real.exp_bound habs (by norm_num : 0 < 8)
  simp only [Finset.sum_range_succ, Finset.sum_range_zero] at hb
  norm_num [Nat.factorial] at hb
  have habs8 : |(4/5 : ℝ)| ^ 8 = 65536/390625 := by
    rw [abs_of_nonneg (by norm_num : (0 : ℝ) ≤ 4/5)]
    norm_num
  rw [habs8] at hb
  rw [abs_le] at hb
  have hlo : (44932/100000 : ℝ) ≤ Real.exp (-(4/5)) := by
    have := hb.1
    linarith
  have hhi : Real.exp (-(4/5)) ≤ (44933/100000 : ℝ) := by
    have := hb.2
    linarith
  have hpos := Real.exp_pos (-(4/5) : ℝ)
  have hsq : Real.exp (-(8/5) : ℝ)
      = Real.exp (-(4/5)) * Real.exp (-(4/5)) := by
    rw [← Real.exp_add]
    norm_num
  constructor
  · rw [hsq]; nlinarith
  · rw [hsq]; nlinarith

/-- C1: on positive finite inputs the simulation returns
`pm25 * exp (-(coeff * rain * duration))` floored at the positive epsilon,
and at `coeff = 0.08`, `pm25 = 100`, `rain = 10`, `duration = 2` the value
is `100 * exp (-1.6) ≈ 20.19` (within `0.01`). -/
theorem simulate_formula_c1 (coeff pm r d : ℝ)
    (hpm : 0 < pm) (hr : 0 < r) (hd : 0 < d) :
    simulate coeff pm r d
      = Except.ok (max EPS (pm * Real.exp (-(coeff * r * d))))
  ∧ ∃ v, simulate (8/100) 100 10 2 = Except.ok v ∧ |v - 2019/100| < 1/100 := by
  constructor
  · rw [simulate, if_neg (by push_neg; exact ⟨hpm, hr, hd⟩)]
    rfl
  · refine ⟨max EPS (100 * Real.exp (-(8/100 * 10 * 2))), ?_, ?_⟩
    · rw [simulate, if_neg (by norm_num)]
      rfl
    · have harg : (-(8/100 * 10 * 2) : ℝ) = -(8/5) := by norm_num
      rw [harg]
      have hb := hundred_exp_neg_bounds
      have hmax : max EPS (100 * Real.exp (-(8/5) : ℝ))
          = 100 * Real.exp (-(8/5) : ℝ) :=
        max_eq_right (le_trans (by norm_num [EPS]) hb.1)
      rw [hmax, abs_lt]
      constructor <;> linarith [hb.1, hb.2]

/-- Witness for C1 at `coeff = 0.08`, `pm25 = 100`, `rain = 10`,
`duration = 2`. -/
theorem simulate_formula_c1_witness :
    ((0 : ℝ) < 100 ∧ (0 : ℝ) < 10 ∧ (0 : ℝ) < 2)
  ∧ (simulate (8/100) 100 10 2
      = Except.ok (max EPS (100 * Real.exp (-(8/100 * 10 * 2))))
    ∧ ∃ v, simulate (8/100) 100 10 2 = Except.ok v
        ∧ |v - 2019/100| < 1/100) :=
  ⟨by norm_num,
   simulate_formula_c1 (8/100) 100 10 2 (by norm_num) (by norm_num)
     (by norm_num)⟩
